import Mathlib

/-!
Shallow embedding of `src/connectionService.js` from
rothskeller/react-native-stripe-terminal.

The connection service is a reactive manager sitting above a hardware
adapter (the StripeTerminal native module) and a persistent store
(AsyncStorage with one fixed key).  Each method of the service is
modelled as a pure Lean function from the manager state (and the
responses the adapter / store would deliver at the method's await
points) to the new state together with an explicit trace of effects:
adapter calls, store operations and event emissions, in the order the
JavaScript issues them.  Asynchronous connect attempts are modelled by
passing the eventual promise outcome (`ConnectOutcome`) as an input;
an internal call to `this.connect()` from within a handler is recorded
as the marker effect `invokeConnect`, carrying its argument.

JavaScript string truthiness (null and the empty string are falsy) is
modelled by `truthy : Option String → Bool`.
-/

namespace STCS

/-- A discovered or connected reader record; only the serial number is
inspected by the service. -/
structure Reader where
  serialNumber : String
  deriving Repr, DecidableEq

/-- The storage key `@STCS:persistedSerialNumber`. -/
def StorageKey : String := "@STCS:persistedSerialNumber"

/-- Policy constant `STCS.PolicyAuto`. -/
def PolicyAuto : String := "auto"

/-- Policy constant `STCS.PolicyPersist`. -/
def PolicyPersist : String := "persist"

/-- Policy constant `STCS.PolicyManual`. -/
def PolicyManual : String := "manual"

/-- Policy constant `STCS.PolicyPersistManual`. -/
def PolicyPersistManual : String := "persist-manual"

/-- The list `STCS.Policies` of valid policies. -/
def Policies : List String := [PolicyAuto, PolicyPersist, PolicyManual, PolicyPersistManual]

/-- The sentinel `STCS.DesiredReaderAny`. -/
def DesiredReaderAny : String := "any"

/-- Model of the SDK constant `StripeTerminal.DeviceTypeChipper2X`
(an opaque token; only its identity matters). -/
def DeviceTypeChipper2X : String := "DeviceTypeChipper2X"

/-- Model of the SDK constant
`StripeTerminal.DiscoveryMethodBluetoothProximity`. -/
def DiscoveryMethodBluetoothProximity : String := "DiscoveryMethodBluetoothProximity"

/-- JavaScript truthiness of a `string | null` value: `null` and the
empty string are falsy, every other string truthy. -/
def truthy : Option String → Bool
  | none => false
  | some s => !(s == "")

/-- JavaScript `o || d` on a `string | null | undefined` value with a
string default. -/
def orDefault (o : Option String) (d : String) : String :=
  match o with
  | none => d
  | some s => if s == "" then d else s

/-- The mutable instance fields of the service (the policy and the
configured device type / discovery mode are fixed after construction;
`desiredReader` is the `string | null` field `this.desiredReader`). -/
structure STCSState where
  policy : String
  deviceType : String
  discoveryMode : String
  desiredReader : Option String
  deriving Repr, DecidableEq

/-- Outcome of an issued `StripeTerminal.connectReader` promise:
resolution with the connected reader record, or rejection. -/
inductive ConnectOutcome where
  | success (r : Reader)
  | failure
  deriving Repr, DecidableEq

/-- One primitive effect issued by the service, in program order:
event emissions on the internal emitter, adapter calls, store
operations, listener registrations, and the marker `invokeConnect`
recording an internal call to `this.connect(arg)`. -/
inductive Effect where
  | emitReadersDiscovered (readers : List Reader)
  | emitConnectionError
  | emitPersistedReaderNotFound (readers : List Reader)
  | emitReaderPersisted (serialNumber : Option String)
  | emitLog (message : String)
  | connectReader (serialNumber : String)
  | abortDiscoverReaders
  | disconnectReader
  | discoverReaders (deviceType : String) (discoveryMode : String)
  | getConnectedReader
  | storeGet (key : String)
  | storeSet (key : String) (value : String)
  | storeRemove (key : String)
  | addReadersDiscoveredListener
  | addDidDisconnectUnexpectedlyFromReaderListener
  | removeListeners
  | invokeConnect (serialNumber : Option String)
  deriving Repr, DecidableEq

/-- The serial numbers passed to `StripeTerminal.connectReader` within a
trace, in order. -/
def connectCalls (effs : List Effect) : List String :=
  effs.filterMap fun e =>
    match e with
    | Effect.connectReader s => some s
    | _ => none

/-- The abort / disconnect / discover adapter calls within a trace, in
order. -/
def hardCalls (effs : List Effect) : List Effect :=
  effs.filter fun e =>
    match e with
    | Effect.abortDiscoverReaders => true
    | Effect.disconnectReader => true
    | Effect.discoverReaders _ _ => true
    | _ => false

/-- Whether an effect writes or removes a value in the persistent
store. -/
def isStoreWrite : Effect → Bool
  | Effect.storeSet _ _ => true
  | Effect.storeRemove _ => true
  | _ => false

/-- Whether a trace contains a store write or removal. -/
def writesStore (effs : List Effect) : Bool :=
  effs.any isStoreWrite

/-- The constructor of `STCS` (lines 27-52): record the options with
their defaults, validate the policy (throwing before anything else
happens on an invalid one), then register the two adapter listeners.
Result `none` models the thrown configuration error; the trace holds
the adapter calls issued. -/
def construct (policy : String) (deviceType : Option String)
    (discoveryMode : Option String) : Option STCSState × List Effect :=
  if Policies.contains policy then
    (some { policy := policy
            deviceType := orDefault deviceType DeviceTypeChipper2X
            discoveryMode := orDefault discoveryMode DiscoveryMethodBluetoothProximity
            desiredReader := none },
     [Effect.addReadersDiscoveredListener,
      Effect.addDidDisconnectUnexpectedlyFromReaderListener])
  else
    (none, [])

/-- `setPersistedReaderSerialNumber` (lines 186-193): remove the stored
value on a falsy argument, store it otherwise, then emit the
`readerPersisted` event carrying the argument.  The store is modelled
as the optional value held at the single fixed key. -/
def setPersistedReaderSerialNumber (store : Option String)
    (serialNumber : Option String) : Option String × List Effect :=
  if truthy serialNumber then
    (serialNumber,
     [Effect.storeSet StorageKey (orDefault serialNumber ""),
      Effect.emitReaderPersisted serialNumber])
  else
    (none,
     [Effect.storeRemove StorageKey,
      Effect.emitReaderPersisted serialNumber])

/-- `getPersistedReaderSerialNumber` (lines 181-184): read the stored
value at the fixed key. -/
def getPersistedReaderSerialNumber (store : Option String) :
    Option String × List Effect :=
  (store, [Effect.storeGet StorageKey])

/-- `getReader` (lines 170-175): the adapter-reported connected reader,
filtered to `null` unless its serial number strictly equals
`this.desiredReader`. -/
def getReaderResult (st : STCSState) (connected : Option Reader) : Option Reader :=
  match connected with
  | none => none
  | some r => if some r.serialNumber == st.desiredReader then some r else none

/-- The log line emitted at the top of `connect` (lines 124-127). -/
def connectLogMessage (serialNumber : Option String) : String :=
  "Connecting to reader: \"" ++ orDefault serialNumber "any" ++ "\"..."

/-- The desired-reader update at the top of `connect` (lines 129-134):
adopt a truthy argument as the new desired reader, then default a
still-falsy desired reader to `DesiredReaderAny`. -/
def connectTargetState (st : STCSState) (serialNumber : Option String) : STCSState :=
  if truthy serialNumber then
    { st with desiredReader := serialNumber }
  else if truthy st.desiredReader then
    st
  else
    { st with desiredReader := some DesiredReaderAny }

/-- `connect(serialNumber)` (lines 123-149): emit the log line, update
the desired reader (`connectTargetState`), then query the connected
reader; if it matches the desired reader, resolve with no further
adapter calls, otherwise abort discovery, disconnect, and start a
fresh discovery scan with the configured device type and discovery
mode.  `connected` is the adapter's `getConnectedReader` response. -/
def connect (st : STCSState) (serialNumber : Option String)
    (connected : Option Reader) : STCSState × List Effect :=
  match getReaderResult (connectTargetState st serialNumber) connected with
  | some _ =>
      (connectTargetState st serialNumber,
       [Effect.emitLog (connectLogMessage serialNumber), Effect.getConnectedReader])
  | none =>
      (connectTargetState st serialNumber,
       [Effect.emitLog (connectLogMessage serialNumber), Effect.getConnectedReader,
        Effect.abortDiscoverReaders, Effect.disconnectReader,
        Effect.discoverReaders (connectTargetState st serialNumber).deviceType
          (connectTargetState st serialNumber).discoveryMode])

/-- `discover` (lines 151-157): abort any pending search, then start a
fresh discovery scan. -/
def discover (st : STCSState) : List Effect :=
  [Effect.abortDiscoverReaders,
   Effect.discoverReaders st.deviceType st.discoveryMode]

/-- `disconnect` (lines 159-168): under the persisting policies, clear
the persisted serial number and reset the desired reader before the
adapter disconnect call; otherwise just issue the adapter disconnect
call. -/
def disconnect (st : STCSState) (store : Option String) :
    STCSState × Option String × List Effect :=
  if st.policy == PolicyPersist || st.policy == PolicyPersistManual then
    let res := setPersistedReaderSerialNumber store none
    ({ st with desiredReader := none }, res.1, res.2 ++ [Effect.disconnectReader])
  else
    (st, store, [Effect.disconnectReader])

/-- The `readers.find(r => r.serialNumber === this.desiredReader)` call
of `onReadersDiscovered` (lines 71-73). -/
def findDesired (st : STCSState) (readers : List Reader) : Option Reader :=
  readers.find? fun r => some r.serialNumber == st.desiredReader

/-- The opportunistic-selection condition of `onReadersDiscovered`
(lines 80-84): policy is auto, or policy is persist with a falsy
desired reader, or the desired reader is the `any` sentinel. -/
def selectionCondition (st : STCSState) : Bool :=
  st.policy == PolicyAuto
    || (st.policy == PolicyPersist && !(truthy st.desiredReader))
    || st.desiredReader == some DesiredReaderAny

/-- The continuation attached to an issued `connectReader` promise
(lines 91-109): on resolution, adopt the connected reader as desired
and, under a persisting policy, persist its serial number; on
rejection, emit `connectionError` and, unless the policy is manual,
restart the connect sequence. -/
def afterConnect (st : STCSState) (store : Option String) (readers : List Reader)
    (serial : String) (outcome : ConnectOutcome) :
    STCSState × Option String × List Effect :=
  let pre := [Effect.emitReadersDiscovered readers, Effect.connectReader serial]
  match outcome with
  | ConnectOutcome.success r =>
      let st' := { st with desiredReader := some r.serialNumber }
      if st'.policy == PolicyPersist || st'.policy == PolicyPersistManual then
        let res := setPersistedReaderSerialNumber store (some r.serialNumber)
        (st', res.1, pre ++ res.2)
      else
        (st', store, pre)
  | ConnectOutcome.failure =>
      if st.policy == PolicyManual then
        (st, store, pre ++ [Effect.emitConnectionError])
      else
        (st, store, pre ++ [Effect.emitConnectionError, Effect.invokeConnect none])

/-- `onReadersDiscovered` (lines 54-116): re-emit the batch, stop on an
empty batch or a falsy desired reader, otherwise connect to the exact
desired reader when present, else to the first reader when the
opportunistic condition allows it, else emit `persistedReaderNotFound`
and restart the connect sequence.  `outcome` is the eventual result of
the issued connect promise (ignored when none is issued). -/
def onReadersDiscovered (st : STCSState) (store : Option String)
    (readers : List Reader) (outcome : ConnectOutcome) :
    STCSState × Option String × List Effect :=
  match readers with
  | [] => (st, store, [Effect.emitReadersDiscovered readers])
  | r0 :: _ =>
      if truthy st.desiredReader = false then
        (st, store, [Effect.emitReadersDiscovered readers])
      else
        match findDesired st readers with
        | some r => afterConnect st store readers r.serialNumber outcome
        | none =>
            if selectionCondition st then
              afterConnect st store readers r0.serialNumber outcome
            else
              (st, store, [Effect.emitReadersDiscovered readers,
                           Effect.emitPersistedReaderNotFound readers,
                           Effect.invokeConnect none])

/-- The selection condition with the `persist`-with-unset-desired
disjunct removed (for comparison with `selectionCondition`). -/
def selectionConditionNoPersistUnset (st : STCSState) : Bool :=
  st.policy == PolicyAuto || st.desiredReader == some DesiredReaderAny

/-- The variant of `onReadersDiscovered` whose opportunistic-selection
condition drops the `persist`-with-unset-desired disjunct; otherwise
identical. -/
def onReadersDiscoveredNoPersistUnset (st : STCSState) (store : Option String)
    (readers : List Reader) (outcome : ConnectOutcome) :
    STCSState × Option String × List Effect :=
  match readers with
  | [] => (st, store, [Effect.emitReadersDiscovered readers])
  | r0 :: _ =>
      if truthy st.desiredReader = false then
        (st, store, [Effect.emitReadersDiscovered readers])
      else
        match findDesired st readers with
        | some r => afterConnect st store readers r.serialNumber outcome
        | none =>
            if selectionConditionNoPersistUnset st then
              afterConnect st store readers r0.serialNumber outcome
            else
              (st, store, [Effect.emitReadersDiscovered readers,
                           Effect.emitPersistedReaderNotFound readers,
                           Effect.invokeConnect none])

/-- `onUnexpectedDisconnect` (lines 118-121): unconditionally restart
the connect sequence. -/
def onUnexpectedDisconnect (st : STCSState) : STCSState × List Effect :=
  (st, [Effect.invokeConnect none])

/-- `start` (lines 195-209): under auto, connect with no target; under
the persisting policies, read the persisted serial number and connect
with it when the policy is persist or the value is truthy; otherwise
(manual, or persist-manual with nothing persisted) do nothing. -/
def start (st : STCSState) (store : Option String) : List Effect :=
  if st.policy == PolicyAuto then
    [Effect.invokeConnect none]
  else if st.policy == PolicyPersist || st.policy == PolicyPersistManual then
    if st.policy == PolicyPersist || truthy store then
      [Effect.storeGet StorageKey, Effect.invokeConnect store]
    else
      [Effect.storeGet StorageKey]
  else
    []

/-- `stop` (lines 211-214): a final adapter disconnect, then removal of
both listener registrations. -/
def stop : List Effect :=
  [Effect.disconnectReader, Effect.removeListeners]

/-- One invocation of a public operation or handler of the service,
with the external inputs it consumes. -/
inductive Op where
  | opReadersDiscovered (readers : List Reader) (outcome : ConnectOutcome)
  | opUnexpectedDisconnect
  | opConnect (serialNumber : Option String) (connected : Option Reader)
  | opDiscover
  | opDisconnect
  | opGetReader (connected : Option Reader)
  | opGetPersisted
  | opSetPersisted (serialNumber : Option String)
  | opStart
  | opStop
  deriving Repr, DecidableEq

/-- Dispatch one operation against the service state and store,
returning the new state, the new store value and the effect trace. -/
def runOp (st : STCSState) (store : Option String) (op : Op) :
    STCSState × Option String × List Effect :=
  match op with
  | Op.opReadersDiscovered readers outcome => onReadersDiscovered st store readers outcome
  | Op.opUnexpectedDisconnect =>
      let res := onUnexpectedDisconnect st
      (res.1, store, res.2)
  | Op.opConnect serialNumber connected =>
      let res := connect st serialNumber connected
      (res.1, store, res.2)
  | Op.opDiscover => (st, store, discover st)
  | Op.opDisconnect => disconnect st store
  | Op.opGetReader _ => (st, store, [Effect.getConnectedReader])
  | Op.opGetPersisted =>
      let res := getPersistedReaderSerialNumber store
      (st, store, res.2)
  | Op.opSetPersisted serialNumber =>
      let res := setPersistedReaderSerialNumber store serialNumber
      (st, res.1, res.2)
  | Op.opStart => (st, store, start st store)
  | Op.opStop => (st, store, stop)

/-- Claim C6: every adapter-reported unexpected disconnect triggers the
connect sequence, for every policy (the state, hence the policy, is
arbitrary and unchanged), with no other condition attached. -/
theorem onUnexpectedDisconnect_always_connects (st : STCSState) :
    (onUnexpectedDisconnect st).2 = [Effect.invokeConnect none]
      ∧ (onUnexpectedDisconnect st).1 = st :=
  ⟨rfl, rfl⟩

/-- Claim C8: constructing with a policy outside the four enumerated values
fails with the configuration error (result `none`) and issues no
adapter call at all — in particular neither listener registration
appears in the trace. -/
theorem construct_invalid_policy_throws (policy : String)
    (deviceType discoveryMode : Option String)
    (h : Policies.contains policy = false) :
    construct policy deviceType discoveryMode = (none, []) := by
  unfold construct
  simp only [h]
  simp

/-- Witness for C8 at the concrete invalid policy `"bogus"`. -/
theorem construct_invalid_policy_throws_witness :
    construct "bogus" none none = (none, []) :=
  construct_invalid_policy_throws "bogus" none none (by decide)

/-- Claim C9: storing a non-empty serial number and reading it back returns
it, and the `readerPersisted` event carries the argument; storing a
falsy value (null or the empty string) removes the stored value, a
subsequent read returns `none`, and the event again carries the
argument. -/
theorem persisted_roundtrip (store : Option String) (id : String)
    (h : id ≠ "") :
    (getPersistedReaderSerialNumber
        (setPersistedReaderSerialNumber store (some id)).1).1 = some id
    ∧ Effect.emitReaderPersisted (some id)
        ∈ (setPersistedReaderSerialNumber store (some id)).2
    ∧ ∀ sn : Option String, truthy sn = false →
        (setPersistedReaderSerialNumber store sn).1 = none
        ∧ (getPersistedReaderSerialNumber
            (setPersistedReaderSerialNumber store sn).1).1 = none
        ∧ Effect.emitReaderPersisted sn
            ∈ (setPersistedReaderSerialNumber store sn).2 := by
  refine ⟨?_, ?_, ?_⟩
  · simp [getPersistedReaderSerialNumber, setPersistedReaderSerialNumber, truthy, h]
  · simp [setPersistedReaderSerialNumber, truthy, h]
  · intro sn hsn
    refine ⟨?_, ?_, ?_⟩ <;>
      simp [getPersistedReaderSerialNumber, setPersistedReaderSerialNumber, hsn]

/-- Witness for C9 at `id = "X"` on an empty store. -/
theorem persisted_roundtrip_witness :
    (getPersistedReaderSerialNumber
        (setPersistedReaderSerialNumber none (some "X")).1).1 = some "X" :=
  (persisted_roundtrip none "X" (by decide)).1

/-- Claim C5: under the persisting policies, `disconnect` removes the
persisted value, emits the persistence event, resets the desired
reader to unset, and only then issues the adapter disconnect call;
under auto and manual it issues only the adapter disconnect call and
leaves both the desired reader and the store unchanged. -/
theorem disconnect_policy_effects (st : STCSState) (store : Option String) :
    ((st.policy = PolicyPersist ∨ st.policy = PolicyPersistManual) →
        disconnect st store =
          ({ st with desiredReader := none }, none,
           [Effect.storeRemove StorageKey, Effect.emitReaderPersisted none,
            Effect.disconnectReader]))
    ∧ ((st.policy = PolicyAuto ∨ st.policy = PolicyManual) →
        disconnect st store = (st, store, [Effect.disconnectReader])) := by
  constructor
  · intro h
    rcases h with h | h <;>
      simp [disconnect, setPersistedReaderSerialNumber, truthy, h]
  · intro h
    rcases h with h | h <;>
      simp [disconnect, h, PolicyAuto, PolicyManual, PolicyPersist, PolicyPersistManual]

/-- Witness for C5 under the persist policy with a stored value. -/
theorem disconnect_policy_effects_witness :
    disconnect ⟨"persist", "dt", "dm", some "X"⟩ (some "X") =
      (⟨"persist", "dt", "dm", none⟩, none,
       [Effect.storeRemove StorageKey, Effect.emitReaderPersisted none,
        Effect.disconnectReader]) :=
  (disconnect_policy_effects ⟨"persist", "dt", "dm", some "X"⟩ (some "X")).1
    (Or.inl rfl)

/-- Claim C2: `start` as a function of the fixed policy — auto invokes
connect with no target; persist reads the store and invokes connect
with whatever was read (possibly nothing); persist-manual reads the
store and invokes connect with the read value exactly when one exists;
manual does nothing.  The final conjunct records that a connect call
with no truthy target on a manager whose desired reader is unset
defaults the target to the `any` sentinel. -/
theorem start_policy_behavior (st : STCSState) (store : Option String) :
    (st.policy = PolicyAuto → start st store = [Effect.invokeConnect none])
    ∧ (st.policy = PolicyPersist →
        start st store = [Effect.storeGet StorageKey, Effect.invokeConnect store])
    ∧ (st.policy = PolicyPersistManual →
        (truthy store = true →
          start st store = [Effect.storeGet StorageKey, Effect.invokeConnect store])
        ∧ (truthy store = false → start st store = [Effect.storeGet StorageKey]))
    ∧ (st.policy = PolicyManual → start st store = [])
    ∧ (∀ sn connected, truthy sn = false → truthy st.desiredReader = false →
        ((connect st sn connected).1).desiredReader = some DesiredReaderAny) := by
  refine ⟨?_, ?_, ?_, ?_, ?_⟩
  · intro h
    simp [start, h]
  · intro h
    simp [start, h, PolicyPersist, PolicyAuto]
  · intro h
    constructor <;> intro htr <;>
      simp [start, h, htr, PolicyPersistManual, PolicyAuto, PolicyPersist]
  · intro h
    simp [start, h, PolicyManual, PolicyAuto, PolicyPersist, PolicyPersistManual]
  · intro sn connected hsn hdes
    unfold connect
    have hts : connectTargetState st sn = { st with desiredReader := some DesiredReaderAny } := by
      unfold connectTargetState
      simp [hsn, hdes]
    split <;> simp [hts]

/-- Witness for C2 under persist-manual with the persisted value `"X"`. -/
theorem start_policy_behavior_witness :
    start ⟨"persist-manual", "dt", "dm", none⟩ (some "X") =
      [Effect.storeGet StorageKey, Effect.invokeConnect (some "X")] :=
  ((start_policy_behavior ⟨"persist-manual", "dt", "dm", none⟩ (some "X")).2.2.1
      rfl).1 (by decide)

/-- Claim C3: when the adapter-reported connected reader matches the desired
reader (as tracked by the manager at the moment of the check),
`connect` resolves with none of the abort / disconnect / discover
adapter calls; otherwise it issues exactly `abortDiscoverReaders`,
then `disconnectReader`, then `discoverReaders` with the configured
device type and discovery mode, in that order. -/
theorem connect_short_circuit_or_full_sequence (st : STCSState)
    (serialNumber : Option String) (connected : Option Reader) :
    ((getReaderResult (connect st serialNumber connected).1 connected).isSome = true →
        hardCalls (connect st serialNumber connected).2 = [])
    ∧ ((getReaderResult (connect st serialNumber connected).1 connected).isSome = false →
        hardCalls (connect st serialNumber connected).2 =
          [Effect.abortDiscoverReaders, Effect.disconnectReader,
           Effect.discoverReaders st.deviceType st.discoveryMode]) := by
  have hdt : (connectTargetState st serialNumber).deviceType = st.deviceType := by
    unfold connectTargetState
    split <;> try split
    all_goals rfl
  have hdm : (connectTargetState st serialNumber).discoveryMode = st.discoveryMode := by
    unfold connectTargetState
    split <;> try split
    all_goals rfl
  unfold connect
  cases hg : getReaderResult (connectTargetState st serialNumber) connected <;>
    simp [hg, hardCalls, hdt, hdm]

/-- Witness for C3: already connected to the desired reader, no
abort / disconnect / discover call is issued. -/
theorem connect_short_circuit_witness :
    hardCalls (connect ⟨"auto", "dt", "dm", some "X"⟩ (some "X")
        (some ⟨"X"⟩)).2 = [] :=
  (connect_short_circuit_or_full_sequence ⟨"auto", "dt", "dm", some "X"⟩
      (some "X") (some ⟨"X"⟩)).1 (by decide)

/-- When the desired reader is truthy, the opportunistic-selection
condition coincides with its variant lacking the
`persist`-with-unset-desired disjunct. -/
theorem selectionCondition_eq_of_truthy (st : STCSState)
    (h : truthy st.desiredReader = true) :
    selectionCondition st = selectionConditionNoPersistUnset st := by
  unfold selectionCondition selectionConditionNoPersistUnset
  simp [h]

/-- Claim C10: the `persist`-with-unset-desired disjunct in the selection
condition is dead code — `onReadersDiscovered` is extensionally equal
to the variant with that disjunct removed, because the handler returns
before selection whenever the desired reader is falsy. -/
theorem onReadersDiscovered_persist_unset_disjunct_dead
    (st : STCSState) (store : Option String) (readers : List Reader)
    (outcome : ConnectOutcome) :
    onReadersDiscovered st store readers outcome =
      onReadersDiscoveredNoPersistUnset st store readers outcome := by
  unfold onReadersDiscovered onReadersDiscoveredNoPersistUnset
  cases readers with
  | nil => rfl
  | cons r0 rest =>
      by_cases h : truthy st.desiredReader = false
      · simp [h]
      · have ht : truthy st.desiredReader = true := by
          revert h
          cases truthy st.desiredReader <;> simp
        rw [selectionCondition_eq_of_truthy st ht]

/-- The continuation of an issued connect always records exactly one
`connectReader` call, with the issued serial number. -/
theorem connectCalls_afterConnect (st : STCSState) (store : Option String)
    (readers : List Reader) (serial : String) (outcome : ConnectOutcome) :
    connectCalls (afterConnect st store readers serial outcome).2.2 = [serial] := by
  cases outcome with
  | success r =>
      cases hp : (st.policy == PolicyPersist || st.policy == PolicyPersistManual) <;>
        cases htr : truthy (some r.serialNumber) <;>
          simp [afterConnect, setPersistedReaderSerialNumber, hp, htr, connectCalls]
  | failure =>
      cases hm : (st.policy == PolicyManual) <;>
        simp [afterConnect, hm, connectCalls]

/-- A resolved connect adopts the connected reader as desired. -/
theorem afterConnect_success_desired (st : STCSState) (store : Option String)
    (readers : List Reader) (serial : String) (r : Reader) :
    (afterConnect st store readers serial (ConnectOutcome.success r)).1.desiredReader
      = some r.serialNumber := by
  cases hp : (st.policy == PolicyPersist || st.policy == PolicyPersistManual) <;>
    simp [afterConnect, hp]

/-- The full trace of a rejected connect: the re-emitted batch, the
connect call, the error event, and a restart unless the policy is
manual. -/
theorem afterConnect_failure_effects (st : STCSState) (store : Option String)
    (readers : List Reader) (serial : String) :
    (afterConnect st store readers serial ConnectOutcome.failure).2.2 =
      [Effect.emitReadersDiscovered readers, Effect.connectReader serial,
       Effect.emitConnectionError]
      ++ (if st.policy == PolicyManual then [] else [Effect.invokeConnect none]) := by
  cases hm : (st.policy == PolicyManual) <;> simp [afterConnect, hm]

/-- A rejected connect emits the error event, and restarts the connect
sequence exactly when the policy is not manual. -/
theorem afterConnect_failure_error_and_retry (st : STCSState) (store : Option String)
    (readers : List Reader) (serial : String) :
    Effect.emitConnectionError
      ∈ (afterConnect st store readers serial ConnectOutcome.failure).2.2
    ∧ (Effect.invokeConnect none
        ∈ (afterConnect st store readers serial ConnectOutcome.failure).2.2
      ↔ st.policy ≠ PolicyManual) := by
  rw [afterConnect_failure_effects]
  by_cases hm : st.policy = PolicyManual
  · have hb : (st.policy == PolicyManual) = true := by simp [hm]
    simp [hb, hm]
  · have hb : (st.policy == PolicyManual) = false := by simp [hm]
    simp [hb, hm]

/-- Step form of the handler on a falsy desired reader: only the batch
re-emission happens. -/
theorem onReadersDiscovered_skip_eq (st : STCSState) (store : Option String)
    (r0 : Reader) (rest : List Reader) (outcome : ConnectOutcome)
    (hdes : truthy st.desiredReader = false) :
    onReadersDiscovered st store (r0 :: rest) outcome =
      (st, store, [Effect.emitReadersDiscovered (r0 :: rest)]) := by
  simp only [onReadersDiscovered]
  rw [if_pos hdes]

/-- Step form of the handler when the batch holds the desired reader:
the continuation of a connect issued with its serial number. -/
theorem onReadersDiscovered_found_eq (st : STCSState) (store : Option String)
    (r0 : Reader) (rest : List Reader) (outcome : ConnectOutcome) (r : Reader)
    (hdes : truthy st.desiredReader = true)
    (hfd : findDesired st (r0 :: rest) = some r) :
    onReadersDiscovered st store (r0 :: rest) outcome =
      afterConnect st store (r0 :: rest) r.serialNumber outcome := by
  simp only [onReadersDiscovered]
  rw [if_neg (by simp [hdes]), hfd]

/-- Step form of the handler absent the desired reader under the
opportunistic condition: a connect issued with the first serial. -/
theorem onReadersDiscovered_opportunistic_eq (st : STCSState) (store : Option String)
    (r0 : Reader) (rest : List Reader) (outcome : ConnectOutcome)
    (hdes : truthy st.desiredReader = true)
    (hfd : findDesired st (r0 :: rest) = none)
    (hsel : selectionCondition st = true) :
    onReadersDiscovered st store (r0 :: rest) outcome =
      afterConnect st store (r0 :: rest) r0.serialNumber outcome := by
  simp only [onReadersDiscovered]
  rw [if_neg (by simp [hdes]), hfd]
  simp [hsel]

/-- Step form of the handler absent the desired reader when the
opportunistic condition forbids connecting: no connect call, the
not-found event, and a restart. -/
theorem onReadersDiscovered_noTarget_eq (st : STCSState) (store : Option String)
    (r0 : Reader) (rest : List Reader) (outcome : ConnectOutcome)
    (hdes : truthy st.desiredReader = true)
    (hfd : findDesired st (r0 :: rest) = none)
    (hsel : selectionCondition st = false) :
    onReadersDiscovered st store (r0 :: rest) outcome =
      (st, store, [Effect.emitReadersDiscovered (r0 :: rest),
                   Effect.emitPersistedReaderNotFound (r0 :: rest),
                   Effect.invokeConnect none]) := by
  simp only [onReadersDiscovered]
  rw [if_neg (by simp [hdes]), hfd]
  simp [hsel]

/-- Claim C1: for a non-empty batch with the desired reader set — if a batch
member carries the desired identifier, `connectReader` is issued with
exactly that identifier; otherwise, under the opportunistic-selection
condition (auto policy, persist with unset desired, or the `any`
sentinel), `connectReader` is issued with the first device's
identifier; otherwise no connect call is issued, the
`persistedReaderNotFound` event carries the batch, and the connect
sequence restarts.  An issued connect that succeeds sets the desired
reader to the connected device's identifier. -/
theorem onReadersDiscovered_target_selection
    (st : STCSState) (store : Option String) (readers : List Reader)
    (outcome : ConnectOutcome) (hne : readers ≠ [])
    (hdes : truthy st.desiredReader = true) :
    (∀ r, findDesired st readers = some r →
        connectCalls (onReadersDiscovered st store readers outcome).2.2 = [r.serialNumber]
        ∧ some r.serialNumber = st.desiredReader)
    ∧ (findDesired st readers = none → selectionCondition st = true →
        ∀ r0, readers.head? = some r0 →
          connectCalls (onReadersDiscovered st store readers outcome).2.2 = [r0.serialNumber])
    ∧ (findDesired st readers = none → selectionCondition st = false →
        connectCalls (onReadersDiscovered st store readers outcome).2.2 = []
        ∧ Effect.emitPersistedReaderNotFound readers
            ∈ (onReadersDiscovered st store readers outcome).2.2
        ∧ Effect.invokeConnect none
            ∈ (onReadersDiscovered st store readers outcome).2.2)
    ∧ (∀ r, outcome = ConnectOutcome.success r →
        connectCalls (onReadersDiscovered st store readers outcome).2.2 ≠ [] →
        (onReadersDiscovered st store readers outcome).1.desiredReader
          = some r.serialNumber) := by
  cases readers with
  | nil => exact absurd rfl hne
  | cons r0 rest =>
      refine ⟨?_, ?_, ?_, ?_⟩
      · intro r hr
        rw [onReadersDiscovered_found_eq st store r0 rest outcome r hdes hr]
        refine ⟨connectCalls_afterConnect _ _ _ _ _, ?_⟩
        have hr' : List.find? (fun x => some x.serialNumber == st.desiredReader)
            (r0 :: rest) = some r := hr
        have hp := List.find?_some hr'
        simpa using hp
      · intro hnone hsel rh hh
        have hh' : r0 = rh := by simpa using hh
        subst hh'
        rw [onReadersDiscovered_opportunistic_eq st store r0 rest outcome hdes hnone hsel]
        exact connectCalls_afterConnect _ _ _ _ _
      · intro hnone hsel
        rw [onReadersDiscovered_noTarget_eq st store r0 rest outcome hdes hnone hsel]
        simp [connectCalls]
      · intro r hout hcc
        subst hout
        cases hfd : findDesired st (r0 :: rest) with
        | some r1 =>
            rw [onReadersDiscovered_found_eq st store r0 rest _ r1 hdes hfd]
            exact afterConnect_success_desired _ _ _ _ _
        | none =>
            cases hsel : selectionCondition st with
            | true =>
                rw [onReadersDiscovered_opportunistic_eq st store r0 rest _ hdes hfd hsel]
                exact afterConnect_success_desired _ _ _ _ _
            | false =>
                rw [onReadersDiscovered_noTarget_eq st store r0 rest _ hdes hfd hsel] at hcc
                simp [connectCalls] at hcc

/-- Witness for C1: auto policy, desired reader `any`, batch `[A, B]`,
successful connect — the connect call targets `A`. -/
theorem onReadersDiscovered_target_selection_witness :
    connectCalls (onReadersDiscovered ⟨"auto", "dt", "dm", some "any"⟩ none
        [⟨"A"⟩, ⟨"B"⟩] (ConnectOutcome.success ⟨"A"⟩)).2.2 = ["A"] := by
  have h := onReadersDiscovered_target_selection ⟨"auto", "dt", "dm", some "any"⟩
    none [⟨"A"⟩, ⟨"B"⟩] (ConnectOutcome.success ⟨"A"⟩) (by decide) (by decide)
  exact h.2.1 (by decide) (by decide) ⟨"A"⟩ (by decide)

/-- Claim C4: when an issued connect fails, the `connectionError` event is
emitted, and the connect sequence is restarted exactly when the policy
is not manual. -/
theorem onReadersDiscovered_failure_retry
    (st : STCSState) (store : Option String) (readers : List Reader)
    (outcome : ConnectOutcome) (hfail : outcome = ConnectOutcome.failure)
    (hconn : connectCalls (onReadersDiscovered st store readers outcome).2.2 ≠ []) :
    Effect.emitConnectionError ∈ (onReadersDiscovered st store readers outcome).2.2
    ∧ (Effect.invokeConnect none ∈ (onReadersDiscovered st store readers outcome).2.2
        ↔ st.policy ≠ PolicyManual) := by
  subst hfail
  cases readers with
  | nil => simp [onReadersDiscovered, connectCalls] at hconn
  | cons r0 rest =>
      cases hd : truthy st.desiredReader with
      | false =>
          rw [onReadersDiscovered_skip_eq st store r0 rest _ hd] at hconn
          simp [connectCalls] at hconn
      | true =>
          cases hfd : findDesired st (r0 :: rest) with
          | some r1 =>
              rw [onReadersDiscovered_found_eq st store r0 rest _ r1 hd hfd]
              exact afterConnect_failure_error_and_retry _ _ _ _
          | none =>
              cases hsel : selectionCondition st with
              | true =>
                  rw [onReadersDiscovered_opportunistic_eq st store r0 rest _ hd hfd hsel]
                  exact afterConnect_failure_error_and_retry _ _ _ _
              | false =>
                  rw [onReadersDiscovered_noTarget_eq st store r0 rest _ hd hfd hsel] at hconn
                  simp [connectCalls] at hconn

/-- Witness for C4: auto policy, one-reader batch, failed connect —
the error event is emitted and a retry is triggered. -/
theorem onReadersDiscovered_failure_retry_witness :
    Effect.emitConnectionError
      ∈ (onReadersDiscovered ⟨"auto", "dt", "dm", some "any"⟩ none [⟨"A"⟩]
          ConnectOutcome.failure).2.2
    ∧ (Effect.invokeConnect none
        ∈ (onReadersDiscovered ⟨"auto", "dt", "dm", some "any"⟩ none [⟨"A"⟩]
            ConnectOutcome.failure).2.2
      ↔ (⟨"auto", "dt", "dm", some "any"⟩ : STCSState).policy ≠ PolicyManual) :=
  onReadersDiscovered_failure_retry ⟨"auto", "dt", "dm", some "any"⟩ none
    [⟨"A"⟩] ConnectOutcome.failure rfl (by decide)

/-- The connect continuation never touches the store when the policy
is neither persisting policy. -/
theorem writesStore_afterConnect (st : STCSState) (store : Option String)
    (readers : List Reader) (serial : String) (outcome : ConnectOutcome)
    (h1 : (st.policy == PolicyPersist) = false)
    (h2 : (st.policy == PolicyPersistManual) = false) :
    writesStore (afterConnect st store readers serial outcome).2.2 = false := by
  cases outcome with
  | success r =>
      simp [afterConnect, h1, h2, writesStore, isStoreWrite]
  | failure =>
      cases hm : (st.policy == PolicyManual) <;>
        simp [afterConnect, hm, writesStore, isStoreWrite]

/-- The discovery handler never touches the store when the policy is
neither persisting policy. -/
theorem writesStore_onReadersDiscovered (st : STCSState) (store : Option String)
    (readers : List Reader) (outcome : ConnectOutcome)
    (h1 : (st.policy == PolicyPersist) = false)
    (h2 : (st.policy == PolicyPersistManual) = false) :
    writesStore (onReadersDiscovered st store readers outcome).2.2 = false := by
  cases readers with
  | nil => simp [onReadersDiscovered, writesStore, isStoreWrite]
  | cons r0 rest =>
      cases hd : truthy st.desiredReader with
      | false =>
          rw [onReadersDiscovered_skip_eq st store r0 rest _ hd]
          simp [writesStore, isStoreWrite]
      | true =>
          cases hfd : findDesired st (r0 :: rest) with
          | some r1 =>
              rw [onReadersDiscovered_found_eq st store r0 rest _ r1 hd hfd]
              exact writesStore_afterConnect st store _ _ _ h1 h2
          | none =>
              cases hsel : selectionCondition st with
              | true =>
                  rw [onReadersDiscovered_opportunistic_eq st store r0 rest _ hd hfd hsel]
                  exact writesStore_afterConnect st store _ _ _ h1 h2
              | false =>
                  rw [onReadersDiscovered_noTarget_eq st store r0 rest _ hd hfd hsel]
                  simp [writesStore, isStoreWrite]

/-- `connect` never touches the store. -/
theorem writesStore_connect (st : STCSState) (serialNumber : Option String)
    (connected : Option Reader) :
    writesStore (connect st serialNumber connected).2 = false := by
  unfold connect
  cases hg : getReaderResult (connectTargetState st serialNumber) connected <;>
    simp [hg, writesStore, isStoreWrite]

/-- `start` only ever reads the store. -/
theorem writesStore_start (st : STCSState) (store : Option String) :
    writesStore (start st store) = false := by
  unfold start
  split
  · rfl
  · split
    · split <;> rfl
    · rfl

/-- Counterexample to C7 as stated: under the auto policy, the
operation `setPersistedReaderSerialNumber "X"` writes to the store. -/
theorem store_written_under_auto_counterexample :
    (⟨PolicyAuto, DeviceTypeChipper2X, DiscoveryMethodBluetoothProximity,
        none⟩ : STCSState).policy = PolicyAuto
    ∧ writesStore (runOp
        ⟨PolicyAuto, DeviceTypeChipper2X, DiscoveryMethodBluetoothProximity, none⟩
        none (Op.opSetPersisted (some "X"))).2.2 = true :=
  ⟨rfl, by decide⟩

/-- Claim C7 (amended): under the auto and manual policies, every operation
of the manager other than the explicit `setPersistedReaderSerialNumber`
pass-through leaves the persisted key untouched — no store write or
removal appears in its trace. -/
theorem runOp_store_untouched_under_auto_manual (st : STCSState)
    (store : Option String) (op : Op)
    (hpol : st.policy = PolicyAuto ∨ st.policy = PolicyManual)
    (hop : ∀ sn, op ≠ Op.opSetPersisted sn) :
    writesStore (runOp st store op).2.2 = false := by
  have h1 : (st.policy == PolicyPersist) = false := by
    rcases hpol with h | h <;> simp [h, PolicyAuto, PolicyManual, PolicyPersist]
  have h2 : (st.policy == PolicyPersistManual) = false := by
    rcases hpol with h | h <;> simp [h, PolicyAuto, PolicyManual, PolicyPersistManual]
  cases op with
  | opReadersDiscovered readers outcome =>
      exact writesStore_onReadersDiscovered st store readers outcome h1 h2
  | opUnexpectedDisconnect => rfl
  | opConnect sn connected => exact writesStore_connect st sn connected
  | opDiscover => rfl
  | opDisconnect =>
      show writesStore (disconnect st store).2.2 = false
      unfold disconnect
      simp [h1, h2, writesStore, isStoreWrite]
  | opGetReader connected => rfl
  | opGetPersisted => rfl
  | opSetPersisted sn => exact absurd rfl (hop sn)
  | opStart => exact writesStore_start st store
  | opStop => rfl

/-- Witness for the amended C7: a disconnect under the auto policy
leaves the store untouched. -/
theorem runOp_store_untouched_witness :
    writesStore (runOp
      ⟨PolicyAuto, DeviceTypeChipper2X, DiscoveryMethodBluetoothProximity, none⟩
      none Op.opDisconnect).2.2 = false :=
  runOp_store_untouched_under_auto_manual
    ⟨PolicyAuto, DeviceTypeChipper2X, DiscoveryMethodBluetoothProximity, none⟩
    none Op.opDisconnect (Or.inl rfl) (fun _ h => Op.noConfusion h)

end STCS
